import Mathlib

/-!
Shallow embedding of the gotoon client library (src/gotoon.go together with
the unnamed variant file) and proofs about its token lifecycle, polling loop,
JSON field codecs and request construction.  HTTP transports are modelled as
scripted responses; machine integers are modelled as Int, instants as Unix
second counts.
-/

namespace GoToon

/-- Instant model of Go `time.Time`: seconds since the Unix epoch together
with a nanosecond part.  `time.Time.Unix()` returns `sec`. -/
structure GoTime where
  sec : Int
  nsec : Nat
  deriving DecidableEq

/-- Go `time.Time.Before`: strict comparison of instants. -/
def GoTime.before (a b : GoTime) : Bool :=
  decide (a.sec < b.sec) || (decide (a.sec = b.sec) && decide (a.nsec < b.nsec))

/-- Go `time.Time.Add` restricted to a whole number of seconds, as used by
getAccessToken (`tnow.Add(time.Second * time.Duration(n))`). -/
def GoTime.addSeconds (a : GoTime) (d : Int) : GoTime :=
  ⟨a.sec + d, a.nsec⟩

/-- The zero value `time.Time{}` (January 1 of year 1, UTC), whose Unix
second count is -62135596800.  GetGasFlow compares its time arguments against
this sentinel with Go `==` / `!=`. -/
def zeroTime : GoTime := ⟨-62135596800, 0⟩

/-- Go pointer model: nil or the address of a value. -/
inductive GoPtr (α : Type) where
  | nil : GoPtr α
  | addr : α → GoPtr α
  deriving DecidableEq

/-- Go address-of applied to a field of an addressable struct value, as in
the guard `&(agreement.AgreementID) == nil`: taking such an address always
produces a non-nil pointer. -/
def addrOfField {α : Type} (x : α) : GoPtr α := GoPtr.addr x

/-- Whether a Go pointer is nil. -/
def GoPtr.isNil {α : Type} : GoPtr α → Bool
  | GoPtr.nil => true
  | GoPtr.addr _ => false

/-- Decimal value of one digit character, used by the ParseInt model. -/
def digitVal (c : Char) : Option Nat :=
  if c.isDigit then some (c.toNat - 48) else none

/-- Accumulating decimal parse of a digit list. -/
def parseNatAux : List Char → Nat → Option Nat
  | [], acc => some acc
  | c :: cs, acc =>
    match digitVal c with
    | some d => parseNatAux cs (acc * 10 + d)
    | none => none

/-- Model of `strconv.ParseInt(s, 10, 64)` on the forms produced by
`strconv.FormatInt`: an optional minus sign followed by decimal digits;
anything else is a parse failure. -/
def parseInt (s : String) : Option Int :=
  match s.data with
  | [] => none
  | c :: cs =>
    if c = '-' then
      match cs with
      | [] => none
      | _ => (parseNatAux cs 0).map (fun n => -(n : Int))
    else (parseNatAux (c :: cs) 0).map (fun n => (n : Int))

/-- jsonTime.MarshalJSON from gotoon.go:
`strconv.FormatInt(time.Time(t).Unix(), 10)` - the decimal string of the
Unix SECOND count (the doc comment in the source claims milliseconds, but
`Unix()` yields seconds). -/
def jsonTimeMarshal (t : GoTime) : String := toString t.sec

/-- jsonTime.UnmarshalJSON from gotoon.go: parse the integer `q`, then take
`time.Unix(q/1000, 0)` - the input is treated as MILLISECONDS and divided by
1000 (Go integer division truncates toward zero, hence `Int.tdiv`). -/
def jsonTimeUnmarshal (s : String) : Option GoTime :=
  (parseInt s).map (fun q => ⟨Int.tdiv q 1000, 0⟩)

/-- jsonBool.UnmarshalJSON from gotoon.go: the raw literals `0` and `false`
decode to false, `1` and `true` decode to true, and anything else is a
decode error carrying the offending literal. -/
def jsonBoolUnmarshal (s : String) : Except String Bool :=
  if s = "0" ∨ s = "false" then Except.ok false
  else if s = "1" ∨ s = "true" then Except.ok true
  else Except.error ("Cannot unmarshal value to boolean: " ++ s)

/-- Data model of the token struct in gotoon.go: the four JSON fields of the
token endpoint response plus the two derived expiry instants. -/
structure Token where
  AccessToken : String
  ExpiresIn : Int
  ExpiresAt : GoTime
  RefreshToken : String
  RefreshTokenExpiresIn : Int
  RefreshTokenExpiresAt : GoTime
  deriving DecidableEq

/-- Data model of the Agreement struct in gotoon.go. -/
structure Agreement where
  AgreementID : String
  AgreementIDChecksum : String
  HeatingType : String
  DisplayCommonName : String
  DisplayHardwareVersion : String
  DisplaySoftwareVersion : String
  IsToonSolar : Bool
  IsToonly : Bool
  deriving DecidableEq

/-- Data model of the Toon client struct in gotoon.go: five credential
fields plus the current access token. -/
structure Toon where
  Username : String
  Password : String
  TenantID : String
  ConsumerKey : String
  ConsumerSecret : String
  accessToken : Token
  deriving DecidableEq

/-- Data model of ThermostatState in gotoon.go. -/
structure ThermostatState where
  ID : Int
  TempValue : Int
  Dhw : Int

/-- Data model of ThermostatStates in gotoon.go. -/
structure ThermostatStates where
  State : List ThermostatState
  LastUpdatedFromDisplay : GoTime

/-- Data model of ThermostatInfo in gotoon.go. -/
structure ThermostatInfo where
  CurrentSetPoint : Int
  CurrentDisplayTemp : Int
  ProgramState : Int
  ActiveState : Int
  NextProgram : Int
  NextState : Int
  NextTime : Int
  NextSetPoint : Int
  ErrorFound : Int
  BoilerModuleConnected : Int
  RealSetPoint : Int
  BurnerInfo : String
  OtCommError : String
  CurrentModulationLevel : Int
  HaveOTBoiler : Int
  LastUpdatedFromDisplay : GoTime

/-- Data model of PowerUsage in gotoon.go (float32 fields become Float). -/
structure PowerUsage where
  Value : Int
  DayCost : Float
  ValueProduced : Int
  DayCostProduced : Int
  ValueSolar : Int
  MaxSolar : Int
  DayCostSolar : Int
  AvgSolarValue : Int
  AvgValue : Float
  AvgDayValue : Float
  AvgProduValue : Int
  AvgDayProduValue : Int
  MeterReading : Int
  MeterReadingLow : Int
  MeterReadingProdu : Int
  MeterReadingLowProdu : Int
  DayUsage : Int
  DayLowUsage : Int
  TodayLowestUsage : Int
  IsSmart : Bool
  LowestDayValue : Int
  SolarProducedToday : Int
  LastUpdatedFromDisplay : GoTime

/-- Data model of GasUsage in gotoon.go. -/
structure GasUsage where
  Value : Int
  DayCost : Float
  AvgValue : Float
  MeterReading : Int
  AvgDayValue : Float
  DayUsage : Int
  IsSmart : Bool
  LastUpdatedFromDisplay : GoTime

/-- Data model of the Status snapshot in gotoon.go. -/
structure Status where
  thermostatStates : ThermostatStates
  thermostatInfo : ThermostatInfo
  powerUsage : PowerUsage
  gasUsage : GasUsage
  LastUpdateFromDisplay : GoTime

/-- Data model of FlowDataPoint in gotoon.go. -/
structure FlowDataPoint where
  Timestamp : GoTime
  Unit : String
  Value : Float

/-- Data model of FlowData in gotoon.go. -/
structure FlowData where
  Hours : List FlowDataPoint
  Days : List FlowDataPoint
  Weeks : List FlowDataPoint
  Months : List FlowDataPoint
  Years : List FlowDataPoint

/-- One scripted HTTP transport response: status code and body text. -/
structure Response where
  statusCode : Nat
  body : String
  deriving DecidableEq

/-- refreshAccessToken from gotoon.go: the body is only a TODO comment and a
bare return, so it yields a nil error and performs no state change. -/
def refreshAccessToken (t : Toon) : Option String × Toon := (none, t)

/-- hasValidToken from src/gotoon.go, with the three `time.Now()` calls
modelled as the single instant `now`.  Control flow follows the source: nil
check on the address of the accessToken field, early false when the refresh
expiry is before now, an attempted refresh when the access expiry is before
now, and a final check that RETURNS `ExpiresAt.Before(now)`. -/
def hasValidToken (t : Toon) (now : GoTime) : Bool × Toon :=
  if (addrOfField t.accessToken).isNil then (false, t)
  else if t.accessToken.RefreshTokenExpiresAt.before now then (false, t)
  else if t.accessToken.ExpiresAt.before now then
    match refreshAccessToken t with
    | (some _, t1) => (false, t1)
    | (none, t1) => (t1.accessToken.ExpiresAt.before now, t1)
  else (t.accessToken.ExpiresAt.before now, t)

/-- hasValidToken of the unnamed variant file (src/unnamed/part_000), which
uses `After` where gotoon.go uses `Before`: it returns false when either
expiry is after now, and true only when both expiries are at or before now. -/
def hasValidTokenV0 (t : Toon) (now : GoTime) : Bool :=
  if (addrOfField t.accessToken).isNil then false
  else if now.before t.accessToken.RefreshTokenExpiresAt then false
  else if now.before t.accessToken.ExpiresAt then false
  else true

/-- Scripted environment for one run of getAccessToken: the status of the
legacy authorize POST, the `code` taken from the Location header (unused by
the control flow: the empty-code error in the source is overwritten by the
next assignment to err), the decoded token-endpoint body (none models a
json.Unmarshal failure), and the `time.Now()` instant captured before the
token POST.  Transport-level failures return early without touching state
and are not scripted. -/
structure AuthScript where
  authStatus : Nat
  code : String
  tokenBody : Option Token
  tnow : GoTime

/-- getAccessToken from gotoon.go: fail with "invalid consumer key" unless
the authorize status is 302; otherwise decode the token response into the
accessToken field and derive both expiries as `tnow + (lifetime - 180)`
seconds. -/
def getAccessToken (t : Toon) (s : AuthScript) : Option String × Toon :=
  if s.authStatus ≠ 302 then (some "invalid consumer key", t)
  else
    match s.tokenBody with
    | none => (some "json unmarshal error", t)
    | some tok =>
      let tok1 : Token :=
        { tok with
          ExpiresAt := s.tnow.addSeconds (tok.ExpiresIn - 180)
          RefreshTokenExpiresAt := s.tnow.addSeconds (tok.RefreshTokenExpiresIn - 180) }
      (none, { t with accessToken := tok1 })

/-- The token prelude shared by GetAgreements, GetStatus and GetGasFlow:
`if !t.hasValidToken() { if err = t.getAccessToken(); err != nil { return } }`. -/
def ensureToken (t : Toon) (auth : AuthScript) (now : GoTime) : Option String × Toon :=
  let v := hasValidToken t now
  if v.1 then (none, v.2) else getAccessToken v.2 auth

/-- GetAgreements from gotoon.go against one scripted response: ensure a
token, then on a non-200 status return the error built from the body alone,
otherwise return the json.Unmarshal outcome (modelled by `parse`).  The
second component is the client state after the call. -/
def GetAgreements (t : Toon) (auth : AuthScript) (now : GoTime) (res : Response)
    (parse : String → Except String (List Agreement)) :
    Except String (List Agreement) × Toon :=
  let r := ensureToken t auth now
  (match r.1 with
    | some e => Except.error e
    | none =>
      if res.statusCode ≠ 200 then
        Except.error ("Cannot get agreements: " ++ res.body)
      else parse res.body,
   r.2)

/-- The 202 polling loop of GetStatus run against a scripted list of
transport responses, together with the number of requests issued: a 200
response stops with the json.Unmarshal outcome (modelled by `parse`), any
status other than 200 and 202 stops with the error built from the body, and
a 202 re-issues the identical request.  An exhausted script models a
transport failure of the next `c.Do`. -/
def getStatusLoop (parse : String → Except String Status) :
    List Response → Except String Status × Nat
  | [] => (Except.error "transport error", 1)
  | r :: rest =>
    if r.statusCode = 200 then (parse r.body, 1)
    else if r.statusCode ≠ 202 then
      (Except.error ("Error getting status: " ++ r.body), 1)
    else
      let p := getStatusLoop parse rest
      (p.1, p.2 + 1)

/-- Body of GetStatus after the invalid-agreement guard: ensure a token,
then run the polling loop. -/
def getStatusAfterGuard (t : Toon) (auth : AuthScript) (now : GoTime)
    (script : List Response) (parse : String → Except String Status) :
    (Except String Status × Nat) × Toon :=
  let r := ensureToken t auth now
  (match r.1 with
    | some e => (Except.error e, 0)
    | none => getStatusLoop parse script,
   r.2)

/-- GetStatus from gotoon.go: the guard `&(agreement.AgreementID) == nil`,
then the token prelude and the polling loop. -/
def GetStatus (t : Toon) (a : Agreement) (auth : AuthScript) (now : GoTime)
    (script : List Response) (parse : String → Except String Status) :
    (Except String Status × Nat) × Toon :=
  if (addrOfField a.AgreementID).isNil then
    ((Except.error "Invalid agreement", 0), t)
  else getStatusAfterGuard t auth now script parse

/-- Query parameters attached to the gas-flow request URL by GetGasFlow: a
parameter is added only when the corresponding argument differs from the
zero `time.Time{}` value, and its value is `1000 * Unix seconds` rendered in
decimal (`fmt.Sprintf` of `1000*fromTime.Unix()`). -/
def gasFlowQuery (fromTime toTime : GoTime) : List (String × String) :=
  (if fromTime ≠ zeroTime then [("fromTime", toString (1000 * fromTime.sec))] else [])
    ++ (if toTime ≠ zeroTime then [("toTime", toString (1000 * toTime.sec))] else [])

/-- Body of GetGasFlow after the invalid-agreement guard: ensure a token,
issue the request carrying `gasFlowQuery fromTime toTime` (returned as the
second component of the result for inspection), and produce the result.  In
the source the non-200 error assignment is immediately overwritten by
`err = json.Unmarshal(bodyBytes, &flow)` because the if-block lacks a return
statement, so the returned outcome is the json.Unmarshal outcome (modelled
by `parse`) regardless of the status code. -/
def getGasFlowAfterGuard (t : Toon) (auth : AuthScript) (now : GoTime)
    (fromTime toTime : GoTime) (res : Response)
    (parse : String → Except String FlowData) :
    (Except String FlowData × List (String × String)) × Toon :=
  let r := ensureToken t auth now
  (match r.1 with
    | some e => (Except.error e, [])
    | none => (parse res.body, gasFlowQuery fromTime toTime),
   r.2)

/-- GetGasFlow from gotoon.go: the guard `&(agreement.AgreementID) == nil`,
then the token prelude and the single request. -/
def GetGasFlow (t : Toon) (a : Agreement) (auth : AuthScript) (now : GoTime)
    (fromTime toTime : GoTime) (res : Response)
    (parse : String → Except String FlowData) :
    (Except String FlowData × List (String × String)) × Toon :=
  if (addrOfField a.AgreementID).isNil then
    ((Except.error "Invalid agreement", []), t)
  else getGasFlowAfterGuard t auth now fromTime toTime res parse

/-- Credential fields of two client values coincide. -/
def sameCredentials (a b : Toon) : Prop :=
  a.Username = b.Username ∧ a.Password = b.Password ∧ a.TenantID = b.TenantID ∧
    a.ConsumerKey = b.ConsumerKey ∧ a.ConsumerSecret = b.ConsumerSecret

/-- A token whose access and refresh expiries both lie at second 1000. -/
def tokenFresh : Token :=
  { AccessToken := "at", ExpiresIn := 600, ExpiresAt := ⟨1000, 0⟩,
    RefreshToken := "rt", RefreshTokenExpiresIn := 3600,
    RefreshTokenExpiresAt := ⟨1000, 0⟩ }

/-- A client holding `tokenFresh`. -/
def toonFresh : Toon :=
  { Username := "u", Password := "p", TenantID := "eneco",
    ConsumerKey := "k", ConsumerSecret := "s", accessToken := tokenFresh }

/-- A client whose access token expired at second 100 while its refresh
token stays valid until second 1000. -/
def toonExpiredAccess : Toon :=
  { toonFresh with
    accessToken := { tokenFresh with ExpiresAt := ⟨100, 0⟩ } }

/-- A token-endpoint response declaring a 600 second access lifetime and a
3600 second refresh lifetime. -/
def tok600 : Token :=
  { AccessToken := "a6", ExpiresIn := 600, ExpiresAt := ⟨0, 0⟩,
    RefreshToken := "r6", RefreshTokenExpiresIn := 3600,
    RefreshTokenExpiresAt := ⟨0, 0⟩ }

/-- An auth script that succeeds with `tok600`, issued at second 1000. -/
def authScript600 : AuthScript :=
  { authStatus := 302, code := "c", tokenBody := some tok600, tnow := ⟨1000, 0⟩ }

/-- An auth script that is never consulted in runs whose token check already
succeeds. -/
def authDummy : AuthScript :=
  { authStatus := 302, code := "", tokenBody := none, tnow := ⟨0, 0⟩ }

/-- An all-zero ThermostatInfo value. -/
def thermostatInfoZero : ThermostatInfo :=
  ⟨0, 0, 0, 0, 0, 0, 0, 0, 0, 0, 0, "", "", 0, 0, ⟨0, 0⟩⟩

/-- An all-zero PowerUsage value. -/
def powerUsageZero : PowerUsage :=
  ⟨0, 0, 0, 0, 0, 0, 0, 0, 0, 0, 0, 0, 0, 0, 0, 0, 0, 0, 0, false, 0, 0, ⟨0, 0⟩⟩

/-- An all-zero GasUsage value. -/
def gasUsageZero : GasUsage := ⟨0, 0, 0, 0, 0, 0, false, ⟨0, 0⟩⟩

/-- An all-zero Status value, used as the decoded form of the body "ok". -/
def statusZero : Status :=
  ⟨⟨[], ⟨0, 0⟩⟩, thermostatInfoZero, powerUsageZero, gasUsageZero, ⟨0, 0⟩⟩

/-- A concrete status decoder: the body "ok" decodes to `statusZero`, every
other body is a decode failure. -/
def parseC : String → Except String Status := fun s =>
  if s = "ok" then Except.ok statusZero else Except.error ("parse failure: " ++ s)

/-- The FlowData value with all five bucket lists empty, the decoded form of
an empty JSON object body. -/
def emptyFlow : FlowData := ⟨[], [], [], [], []⟩

/-- A concrete flow decoder: the body "\x7b\x7d" (an empty JSON object)
decodes to `emptyFlow`, every other body is a decode failure. -/
def parseF : String → Except String FlowData := fun s =>
  if s = "\x7b\x7d" then Except.ok emptyFlow else Except.error ("parse failure: " ++ s)

/-- A concrete agreements decoder that always fails; non-200 runs of
GetAgreements never reach it. -/
def parseA : String → Except String (List Agreement) := fun s =>
  Except.error ("parse failure: " ++ s)

/-- An agreement value with every field at its zero value, in particular an
empty AgreementID. -/
def agreementEmpty : Agreement := ⟨"", "", "", "", "", "", false, false⟩

/-! Helper lemmas, shared between the claim theorems. -/

/-- hasValidToken never changes the client state: the refresh call it makes
is the identity. -/
theorem hasValidToken_state_eq (t : Toon) (now : GoTime) :
    (hasValidToken t now).2 = t := by
  unfold hasValidToken
  split
  · rfl
  · split
    · rfl
    · split <;> rfl

/-- Every client value has the same credentials as itself. -/
theorem sameCredentials_refl (t : Toon) : sameCredentials t t :=
  ⟨rfl, rfl, rfl, rfl, rfl⟩

/-- getAccessToken preserves the five credential fields. -/
theorem creds_getAccessToken (t : Toon) (s : AuthScript) :
    sameCredentials t (getAccessToken t s).2 := by
  unfold getAccessToken
  split
  · exact sameCredentials_refl t
  · cases s.tokenBody <;> exact ⟨rfl, rfl, rfl, rfl, rfl⟩

/-- ensureToken preserves the five credential fields. -/
theorem creds_ensureToken (t : Toon) (auth : AuthScript) (now : GoTime) :
    sameCredentials t (ensureToken t auth now).2 := by
  simp only [ensureToken]
  rw [hasValidToken_state_eq]
  split
  · exact sameCredentials_refl t
  · exact creds_getAccessToken t auth

/-! Claim theorems. -/

/-- C1 (code bug): at now = second 500 both expiries of `toonFresh` (second
1000) lie strictly in the future, so the claim requires the validity check
to return true, yet hasValidToken of src/gotoon.go returns false, because
its final line returns `ExpiresAt.Before(now)`; conversely for
`toonExpiredAccess` (access expiry in the past, refresh expiry in the
future) it returns true although the claim requires false.  The part_000
variant also returns false on the fresh token. -/
theorem hasValidToken_inverted :
    (GoTime.before ⟨500, 0⟩ toonFresh.accessToken.ExpiresAt = true) ∧
    (GoTime.before ⟨500, 0⟩ toonFresh.accessToken.RefreshTokenExpiresAt = true) ∧
    ((hasValidToken toonFresh ⟨500, 0⟩).1 = false) ∧
    (GoTime.before ⟨500, 0⟩ toonExpiredAccess.accessToken.ExpiresAt = false) ∧
    ((hasValidToken toonExpiredAccess ⟨500, 0⟩).1 = true) ∧
    (hasValidTokenV0 toonFresh ⟨500, 0⟩ = false) :=
  ⟨rfl, rfl, rfl, rfl, rfl, rfl⟩

/-- C3 (code bug): jsonTime.MarshalJSON writes the Unix second count while
jsonTime.UnmarshalJSON divides the parsed integer by 1000, so the round trip
maps the timestamp with second count 1704067200 to second count 1704067
instead of returning it unchanged. -/
theorem jsonTime_roundtrip_lossy :
    jsonTimeMarshal ⟨1704067200, 0⟩ = "1704067200" ∧
    jsonTimeUnmarshal "1704067200" = some ⟨1704067, 0⟩ ∧
    jsonTimeUnmarshal (jsonTimeMarshal ⟨1704067200, 0⟩) ≠ some ⟨1704067200, 0⟩ := by
  refine ⟨rfl, rfl, ?_⟩
  decide

/-- C6: jsonBool decoding maps the literal 0 to false, 1 to true, false to
false, true to true, and fails with a decode error on every other literal. -/
theorem jsonBool_cases (s : String)
    (h0 : s ≠ "0") (h1 : s ≠ "1") (hf : s ≠ "false") (ht : s ≠ "true") :
    jsonBoolUnmarshal "0" = Except.ok false ∧
    jsonBoolUnmarshal "1" = Except.ok true ∧
    jsonBoolUnmarshal "false" = Except.ok false ∧
    jsonBoolUnmarshal "true" = Except.ok true ∧
    jsonBoolUnmarshal s = Except.error ("Cannot unmarshal value to boolean: " ++ s) := by
  refine ⟨rfl, rfl, rfl, rfl, ?_⟩
  simp [jsonBoolUnmarshal, h0, h1, hf, ht]

/-- Witness for C6 at the concrete rejected literal 2. -/
theorem jsonBool_cases_witness :
    jsonBoolUnmarshal "0" = Except.ok false ∧
    jsonBoolUnmarshal "1" = Except.ok true ∧
    jsonBoolUnmarshal "false" = Except.ok false ∧
    jsonBoolUnmarshal "true" = Except.ok true ∧
    jsonBoolUnmarshal "2" = Except.error ("Cannot unmarshal value to boolean: " ++ "2") :=
  jsonBool_cases "2" (by decide) (by decide) (by decide) (by decide)

/-- C2 counterexample: a 404 and a 500 response with the same body give
identical results of the polling loop, so the terminal error cannot carry
the status code; the error string is built from the body alone. -/
theorem getStatus_error_drops_status :
    getStatusLoop parseC [⟨404, "oops"⟩] = getStatusLoop parseC [⟨500, "oops"⟩] ∧
    getStatusLoop parseC [⟨404, "oops"⟩]
      = (Except.error ("Error getting status: " ++ "oops"), 1) :=
  ⟨rfl, rfl⟩

/-- C2 amended: against any scripted transport the polling loop of GetStatus
stops on a 200 with the decoded body after one request, re-issues the
identical request on a 202, and stops on any other status with an error
built from the response body (the numeric status code is not part of the
error); GetStatus runs the loop once the token check succeeds.  In
particular a 202, 202, 200 script with a decodable final body yields the
decoded body after exactly three requests, and a 404 script fails after
exactly one request. -/
theorem getStatus_polling (parse : String → Except String Status) :
    (∀ t a auth now script, ensureToken t auth now = (none, t) →
      GetStatus t a auth now script parse = (getStatusLoop parse script, t)) ∧
    (∀ b rest, getStatusLoop parse (⟨200, b⟩ :: rest) = (parse b, 1)) ∧
    (∀ b rest, getStatusLoop parse (⟨202, b⟩ :: rest)
      = ((getStatusLoop parse rest).1, (getStatusLoop parse rest).2 + 1)) ∧
    (∀ s b rest, s ≠ 200 → s ≠ 202 →
      getStatusLoop parse (⟨s, b⟩ :: rest)
        = (Except.error ("Error getting status: " ++ b), 1)) ∧
    (∀ b1 b2 b3 st, parse b3 = Except.ok st →
      getStatusLoop parse [⟨202, b1⟩, ⟨202, b2⟩, ⟨200, b3⟩] = (Except.ok st, 3)) ∧
    (∀ b, getStatusLoop parse [⟨404, b⟩]
      = (Except.error ("Error getting status: " ++ b), 1)) := by
  refine ⟨?_, ?_, ?_, ?_, ?_, ?_⟩
  · intro t a auth now script h
    simp [GetStatus, getStatusAfterGuard, addrOfField, GoPtr.isNil, h]
  · intro b rest
    simp [getStatusLoop]
  · intro b rest
    simp [getStatusLoop]
  · intro s b rest h200 h202
    simp [getStatusLoop, h200, h202]
  · intro b1 b2 b3 st h
    simp [getStatusLoop, h]
  · intro b
    simp [getStatusLoop]

/-- Witness for C2 at concrete scripts: a client whose token check succeeds,
the 202, 202, 200 script with the decoder `parseC`, and the 404 script. -/
theorem getStatus_polling_witness :
    GetStatus toonExpiredAccess agreementEmpty authDummy ⟨500, 0⟩
        [⟨202, "a"⟩, ⟨202, "b"⟩, ⟨200, "ok"⟩] parseC
      = (getStatusLoop parseC [⟨202, "a"⟩, ⟨202, "b"⟩, ⟨200, "ok"⟩],
         toonExpiredAccess) ∧
    getStatusLoop parseC [⟨202, "a"⟩, ⟨202, "b"⟩, ⟨200, "ok"⟩]
      = (Except.ok statusZero, 3) ∧
    getStatusLoop parseC [⟨404, "nf"⟩]
      = (Except.error ("Error getting status: " ++ "nf"), 1) :=
  ⟨(getStatus_polling parseC).1 toonExpiredAccess agreementEmpty authDummy
      ⟨500, 0⟩ [⟨202, "a"⟩, ⟨202, "b"⟩, ⟨200, "ok"⟩] rfl,
   (getStatus_polling parseC).2.2.2.2.1 "a" "b" "ok" statusZero rfl,
   (getStatus_polling parseC).2.2.2.2.2 "nf"⟩

/-- C4 (code bug): GetAgreements returns early on a non-200 status with an
error built from the body, but in GetGasFlow the non-200 error value is
overwritten by the json.Unmarshal outcome (the source lacks a return inside
the status check), so a 500 response whose body is the decodable empty JSON
object yields a success carrying the decoded empty flow and no error. -/
theorem getGasFlow_swallows_http_error :
    (GetGasFlow toonExpiredAccess agreementEmpty authDummy ⟨500, 0⟩ zeroTime zeroTime
        ⟨500, "\x7b\x7d"⟩ parseF).1.1 = Except.ok emptyFlow ∧
    (GetAgreements toonExpiredAccess authDummy ⟨500, 0⟩ ⟨500, "nope"⟩ parseA).1
      = Except.error ("Cannot get agreements: " ++ "nope") :=
  ⟨rfl, rfl⟩

/-- C5: on a successful token exchange getAccessToken stores derived
expiries equal to the issue time plus the declared lifetime minus 180
seconds, for both the access and the refresh lifetime. -/
theorem getAccessToken_expiries (t : Toon) (s : AuthScript) (tok : Token)
    (hst : s.authStatus = 302) (hbody : s.tokenBody = some tok) :
    (getAccessToken t s).1 = none ∧
    (getAccessToken t s).2.accessToken.ExpiresAt.sec
      = s.tnow.sec + tok.ExpiresIn - 180 ∧
    (getAccessToken t s).2.accessToken.RefreshTokenExpiresAt.sec
      = s.tnow.sec + tok.RefreshTokenExpiresIn - 180 := by
  have h302 : ¬ (s.authStatus ≠ 302) := by simp [hst]
  refine ⟨?_, ?_, ?_⟩ <;>
    simp [getAccessToken, h302, hbody, GoTime.addSeconds] <;> omega

/-- Witness for C5: the declared lifetimes 600 and 3600 issued at second
1000 give expiry seconds 1000 + 600 - 180 = 1420 and 1000 + 3600 - 180. -/
theorem getAccessToken_expiries_witness :
    (getAccessToken toonFresh authScript600).1 = none ∧
    (getAccessToken toonFresh authScript600).2.accessToken.ExpiresAt.sec
      = authScript600.tnow.sec + tok600.ExpiresIn - 180 ∧
    (getAccessToken toonFresh authScript600).2.accessToken.RefreshTokenExpiresAt.sec
      = authScript600.tnow.sec + tok600.RefreshTokenExpiresIn - 180 :=
  getAccessToken_expiries toonFresh authScript600 tok600 rfl rfl

/-- C7: the gas-flow query contains the fromTime (resp. toTime) parameter
exactly when the argument differs from the zero time value, with the value
1000 times the Unix second count rendered in decimal; for the instant
2024-01-01T00:00:00Z (second 1704067200) the rendered value is
1704067200000. -/
theorem gasFlowQuery_spec (fromTime toTime : GoTime) :
    List.lookup "fromTime" (gasFlowQuery fromTime toTime)
      = (if fromTime = zeroTime then none
         else some (toString (1000 * fromTime.sec))) ∧
    List.lookup "toTime" (gasFlowQuery fromTime toTime)
      = (if toTime = zeroTime then none
         else some (toString (1000 * toTime.sec))) ∧
    gasFlowQuery ⟨1704067200, 0⟩ zeroTime = [("fromTime", "1704067200000")] := by
  refine ⟨?_, ?_, rfl⟩
  · by_cases hf : fromTime = zeroTime <;> by_cases ht : toTime = zeroTime <;>
      simp [gasFlowQuery, List.lookup, hf, ht]
  · by_cases hf : fromTime = zeroTime <;> by_cases ht : toTime = zeroTime <;>
      simp [gasFlowQuery, List.lookup, hf, ht]

/-- C8: none of the six operations changes any of the five credential
fields; the only client field any of them writes is accessToken. -/
theorem credentials_immutable
    (t : Toon) (s : AuthScript) (now : GoTime) (a : Agreement)
    (res : Response) (script : List Response) (fromTime toTime : GoTime)
    (pa : String → Except String (List Agreement))
    (ps : String → Except String Status)
    (pf : String → Except String FlowData) :
    sameCredentials t (getAccessToken t s).2 ∧
    sameCredentials t (hasValidToken t now).2 ∧
    sameCredentials t (refreshAccessToken t).2 ∧
    sameCredentials t (GetAgreements t s now res pa).2 ∧
    sameCredentials t (GetStatus t a s now script ps).2 ∧
    sameCredentials t (GetGasFlow t a s now fromTime toTime res pf).2 :=
  ⟨creds_getAccessToken t s,
   by rw [hasValidToken_state_eq]; exact sameCredentials_refl t,
   sameCredentials_refl t,
   creds_ensureToken t s now,
   creds_ensureToken t s now,
   creds_ensureToken t s now⟩

/-- C9: refreshAccessToken returns a nil error and the unchanged client, so
the refresh branch inside hasValidToken leaves the stored token (and the
whole client state) unchanged: the access token is never renewed there. -/
theorem refreshAccessToken_noop (t : Toon) (now : GoTime) :
    refreshAccessToken t = (none, t) ∧
    (hasValidToken t now).2 = t ∧
    (hasValidToken t now).2.accessToken = t.accessToken :=
  ⟨rfl, hasValidToken_state_eq t now, by rw [hasValidToken_state_eq]⟩

/-- C10: for every agreement value, one with an empty AgreementID included,
the address of the AgreementID field is non-nil, so GetStatus and GetGasFlow
always pass the invalid-agreement guard and continue with the request. -/
theorem invalid_agreement_guard_unreachable
    (a : Agreement) (t : Toon) (s : AuthScript) (now : GoTime)
    (script : List Response) (res : Response) (fromTime toTime : GoTime)
    (ps : String → Except String Status)
    (pf : String → Except String FlowData) :
    (addrOfField a.AgreementID).isNil = false ∧
    GetStatus t a s now script ps = getStatusAfterGuard t s now script ps ∧
    GetGasFlow t a s now fromTime toTime res pf
      = getGasFlowAfterGuard t s now fromTime toTime res pf :=
  ⟨rfl, rfl, rfl⟩

end GoToon
